import Mathlib

/-!
Shallow embedding of the message-triage pipeline of `bot.py`
(a Telegram customer-service bot: FAQ lookup, generative fallback,
human escalation), together with theorems settling the specification
claims about it.

Strings are modelled as lists of characters (`Str`), so that the Python
substring operator `in` becomes contiguous-sublist containment
(`List.IsInfix`, written `<:+:`) and Python `str.lower` becomes a
character-wise `Char.toLower` map.  The two external collaborators are
modelled as parameters: the Completion Service (`gemini`) as a function
returning `Except Unit Str` (an `error` models a raised exception), and
the Escalation Sink as a boolean `sinkOk` saying whether its
notification call succeeds, together with an explicit record of the
messages the pipeline emits.
-/

abbrev Str := List Char

/-- Python `s.lower()`, character-wise. -/
def lowerStr (s : Str) : Str := s.map Char.toLower

/-- Python `pat in text` (contiguous substring containment), as a Bool. -/
def strIn (pat text : Str) : Bool := decide (pat <:+: text)

/-- One FAQ entry of the knowledge base loaded from `faqs.json`:
fields `question`, `answer`, `keywords` (bot.py, section 2). -/
structure FaqEntry where
  question : Str
  answer   : Str
  keywords : List Str
deriving DecidableEq, Repr

/-- Embedding of check_faqs (bot.py lines 50-54): iterate the FAQ list in order;
the first entry one of whose keywords is a substring of the query wins;
return the empty string when no entry matches. -/
def check_faqs (query : Str) : List FaqEntry → Str
  | [] => []
  | faq :: rest =>
      if faq.keywords.any (fun kw => strIn kw query) then faq.answer
      else check_faqs query rest

/-- Trigger list of needs_human_escalation (bot.py line 70). -/
def triggers : List Str :=
  ["transferir".data, "humano".data, "agente".data, "no sé".data, "no puedo".data]

/-- Embedding of needs_human_escalation (bot.py lines 69-71): true when any trigger
is a substring of the lowercased response. -/
def needs_human_escalation (response : Str) : Bool :=
  triggers.any (fun t => strIn t (lowerStr response))

/-- The generic technical-difficulty reply text (bot.py line 122). -/
def techDifficulties : Str :=
  "⚠️ Lo siento, estoy teniendo dificultades técnicas.".data

/-- The canned escalation acknowledgment sent at the end of
`handle_message` when escalation triggered (bot.py line 119). -/
def agentAck : Str :=
  "⏳ Un agente humano se contactará contigo en breve.".data

/-- The reply sent to the user by `escalate_to_human` itself
(bot.py line 106). -/
def escalatedReply : Str :=
  "🔹 Tu consulta ha sido elevada a nuestro equipo de soporte.".data

/-- The `Consulta:` field of the sink notification renders
`query or update.message.text` (bot.py line 99): the query when it is a
truthy (non-None, non-empty) string, otherwise the text of the
triggering message.  The second argument is `none` when the update has
no message (a callback-query update, whose `update.message` is None):
evaluating the fallback then raises AttributeError, modelled by a
`none` result. -/
def consultaOf? (q : Option Str) (msgText? : Option Str) : Option Str :=
  match q with
  | some s => if s = [] then msgText? else some s
  | none => msgText?

/-- The message `escalate_to_human` sends to the support chat
(bot.py lines 96-100). -/
def escalation_msg (user consulta : Str) : Str :=
  "🚨 Escalamiento requerido\nUsuario: ".data ++ user
    ++ "\nConsulta: ".data ++ consulta

/-- The two observable effects of `escalate_to_human`
(bot.py lines 94-106): the notification sent to the support chat and
the reply sent to the user. -/
structure EscalateEffects where
  notification : Str
  reply : Str
deriving DecidableEq, Repr

/-- Embedding of escalate_to_human (bot.py lines 94-106). Here `user` is
the rendered user mention and `msgText?` the `text` of `update.message`
(`none` when `update.message` itself is None, as on a callback-query
update).  The call can raise, modelled by `Except.error`: building the
notification f-string at line 99 raises AttributeError when the
fallback `update.message.text` is evaluated with `update.message`
None (before anything is sent), and the sink call `send_message` at
line 101 raises when the support channel fails (`sinkOk = false`). -/
def escalate_to_human (sinkOk : Bool) (user : Str) (q : Option Str)
    (msgText? : Option Str) : Except Unit EscalateEffects :=
  match consultaOf? q msgText? with
  | none => Except.error ()
  | some consulta =>
      if sinkOk then
        Except.ok { notification := escalation_msg user consulta
                    reply := escalatedReply }
      else Except.error ()

/-- The observable outcome of one pipeline invocation: the replies sent
to the user (in order), the notifications delivered to the support
chat, the number of Completion Service calls, and whether a sink
notification was attempted. -/
structure HandleResult where
  replies : List Str
  notifications : List Str
  geminiCalls : Nat
  sinkAttempted : Bool
deriving DecidableEq, Repr

/-- Embedding of handle_message (bot.py lines 108-123).  Lowercase the inbound
text, try the FAQ list, and when the FAQ answer is falsy (empty), call
the Completion Service inside a try/except: on a raised exception reply
with the technical-difficulty text; on success run the escalation
classifier and, when it fires, call `escalate_to_human` (whose sink
call may itself raise, in which case control falls into the same
except branch) and then reply with the canned acknowledgment.  The
parameter `sinkOk` says whether the sink notification call succeeds;
when it fails on the escalation path, the raised exception is caught by
the same except branch as a Completion Service failure. -/
def handle_message (faqs : List FaqEntry) (gemini : Str → Except Unit Str)
    (sinkOk : Bool) (user rawText : Str) : HandleResult :=
  let user_input := lowerStr rawText
  let response := check_faqs user_input faqs
  if response = [] then
    match gemini user_input with
    | Except.error _ =>
        { replies := [techDifficulties], notifications := []
          geminiCalls := 1, sinkAttempted := false }
    | Except.ok generated =>
        if needs_human_escalation generated then
          match escalate_to_human sinkOk user (some user_input) (some rawText) with
          | Except.ok e =>
              { replies := [e.reply, agentAck]
                notifications := [e.notification]
                geminiCalls := 1, sinkAttempted := true }
          | Except.error _ =>
              { replies := [techDifficulties], notifications := []
                geminiCalls := 1, sinkAttempted := true }
        else
          { replies := [generated], notifications := []
            geminiCalls := 1, sinkAttempted := false }
  else
    { replies := [response], notifications := []
      geminiCalls := 0, sinkAttempted := false }

/-- The `/human` command entry point: `escalate_to_human` is registered
directly as the handler (bot.py line 136), so it runs with its default
`query = None`; here `update.message` is the command message, so
`msgText` (its text, e.g. the literal command) is present.  Its body
makes no Completion Service call and no FAQ lookup.  A raise inside
`escalate_to_human` propagates out of the handler uncaught, with no
reply to the user (`Except.error`). -/
def human_command (sinkOk : Bool) (user msgText : Str) :
    Except Unit HandleResult :=
  match escalate_to_human sinkOk user none (some msgText) with
  | Except.ok e =>
      Except.ok { replies := [e.reply], notifications := [e.notification]
                  geminiCalls := 0, sinkAttempted := true }
  | Except.error _ => Except.error ()

/-- The FAQ listing rendered by `button_handler` (bot.py line 131):
one bullet line per entry, joined with newlines. -/
def faq_list (faqs : List FaqEntry) : Str :=
  List.intercalate "\n".data (faqs.map (fun f => "• ".data ++ f.question))

/-- The `faqs` branch of `button_handler` (bot.py lines 130-132): edit
the message to the header line followed by the rendered FAQ list; no
external call of any kind. -/
def faqs_button (faqs : List FaqEntry) : HandleResult :=
  { replies := ["📚 FAQs Disponibles:\n".data ++ faq_list faqs]
    notifications := [], geminiCalls := 0, sinkAttempted := false }

/-- Embedding of button_handler (bot.py lines 125-132): dispatch on the
callback token, `human` to explicit escalation, anything else to the
FAQ listing.  A callback-query update carries only `callback_query`;
its `update.message` is None (which is why the faqs branch edits
`query.message`, bot.py line 132), so the `human` branch calls
`escalate_to_human(update, context, None)` with no message to fall
back on: line 99 raises AttributeError before any notification, the
raise leaves the handler uncaught, and neither the sink nor the user
receives anything (`Except.error`). -/
def button_handler (faqs : List FaqEntry) (sinkOk : Bool)
    (user data : Str) : Except Unit HandleResult :=
  if data = "human".data then
    match escalate_to_human sinkOk user none none with
    | Except.ok e =>
        Except.ok { replies := [e.reply], notifications := [e.notification]
                    geminiCalls := 0, sinkAttempted := true }
    | Except.error _ => Except.error ()
  else Except.ok (faqs_button faqs)

/-- Spec-side predicate: an FAQ entry matches a query when any of its
keywords is a substring of the query (spec section 4.1).  Its body
coincides with the per-entry condition inside check_faqs. -/
def entry_matches (query : Str) (faq : FaqEntry) : Bool :=
  faq.keywords.any (fun kw => strIn kw query)

/-- Spec-side matcher, written after the words of spec section 4.1:
return the answer of the first matching entry in load order, and the
empty result when no entry matches.  Compared with check_faqs in the
refinement theorem for claim C5. -/
def match_spec (query : Str) (faqs : List FaqEntry) : Str :=
  match faqs.find? (entry_matches query) with
  | some faq => faq.answer
  | none => []

theorem lowerStr_eq_nil (s : Str) : lowerStr s = [] ↔ s = [] := by
  simp [lowerStr]

theorem consultaOf_some_lower (raw : Str) :
    consultaOf? (some (lowerStr raw)) (some raw) = some (lowerStr raw) := by
  cases raw with
  | nil => simp [consultaOf?, lowerStr]
  | cons c cs => simp [consultaOf?, lowerStr]

theorem escalate_ok_of_some_lower (user raw : Str) :
    escalate_to_human true user (some (lowerStr raw)) (some raw) =
      Except.ok { notification := escalation_msg user (lowerStr raw)
                  reply := escalatedReply } := by
  rw [escalate_to_human, consultaOf_some_lower]
  rfl

theorem check_faqs_cons (query : Str) (faq : FaqEntry) (rest : List FaqEntry) :
    check_faqs query (faq :: rest) =
      if entry_matches query faq = true then faq.answer
      else check_faqs query rest := rfl

theorem check_faqs_eq_match_spec (query : Str) (faqs : List FaqEntry) :
    check_faqs query faqs = match_spec query faqs := by
  induction faqs with
  | nil => rfl
  | cons faq rest ih =>
      rw [check_faqs_cons]
      by_cases h : entry_matches query faq = true
      · simp [match_spec, List.find?_cons_of_pos _ h, h]
      · rw [if_neg h, ih]
        simp [match_spec, List.find?_cons_of_neg _ h]

theorem entry_matches_iff (query : Str) (faq : FaqEntry) :
    entry_matches query faq = true ↔ ∃ kw ∈ faq.keywords, kw <:+: query := by
  simp [entry_matches, strIn, List.any_eq_true]

theorem strIn_nil_pat (query : Str) : strIn [] query = true :=
  decide_eq_true ⟨[], query, rfl⟩

theorem geminiCalls_of_kb_miss (faqs : List FaqEntry)
    (gemini : Str → Except Unit Str) (sinkOk : Bool) (user rawText : Str)
    (h : check_faqs (lowerStr rawText) faqs = []) :
    (handle_message faqs gemini sinkOk user rawText).geminiCalls = 1 := by
  unfold handle_message
  simp only [h, if_pos]
  cases gemini (lowerStr rawText) with
  | error err => rfl
  | ok g =>
      by_cases he : needs_human_escalation g = true
      · cases hE : escalate_to_human sinkOk user (some (lowerStr rawText))
            (some rawText) with
        | error u => simp [he, hE]
        | ok e => simp [he, hE]
      · simp [he]

/-- C5: the knowledge-base matcher iterates entries in load order, an
entry matches iff any of its keywords is a literal substring of the
query, the answer of the first matching entry is returned (first match
wins, no scoring), and the empty result is returned when no entry
matches: check_faqs coincides with the spec-side first-match function
match_spec, and the per-entry match condition is exactly existence of a
keyword contained in the query. -/
theorem claim_C5 (query : Str) (faqs : List FaqEntry) :
    check_faqs query faqs = match_spec query faqs ∧
    (∀ faq : FaqEntry, entry_matches query faq = true ↔
      ∃ kw ∈ faq.keywords, kw <:+: query) ∧
    ((∀ faq ∈ faqs, entry_matches query faq = false) →
      check_faqs query faqs = []) := by
  refine ⟨check_faqs_eq_match_spec query faqs,
    fun faq => entry_matches_iff query faq, fun h => ?_⟩
  rw [check_faqs_eq_match_spec]
  have hnone : faqs.find? (entry_matches query) = none := by
    rw [List.find?_eq_none]
    intro x hx
    simp [h x hx]
  simp [match_spec, hnone]

/-- C6: the escalation classifier returns true iff the lowercased text
contains at least one of the five fixed trigger substrings; it is a
pure function of its argument by construction. -/
theorem claim_C6 (response : Str) :
    needs_human_escalation response = true ↔
      ("transferir".data <:+: lowerStr response ∨
       "humano".data <:+: lowerStr response ∨
       "agente".data <:+: lowerStr response ∨
       "no sé".data <:+: lowerStr response ∨
       "no puedo".data <:+: lowerStr response) := by
  simp [needs_human_escalation, triggers, strIn]

/-- C10: an FAQ entry whose keyword list contains the empty string
matches every query (empty-string substring containment holds
universally), and placed first it makes check_faqs return its answer
for every inbound query, shadowing all later entries. -/
theorem claim_C10 (e : FaqEntry) (rest : List FaqEntry) (query : Str)
    (h : ([] : Str) ∈ e.keywords) :
    entry_matches query e = true ∧
    check_faqs query (e :: rest) = e.answer := by
  have hm : entry_matches query e = true :=
    (entry_matches_iff query e).mpr ⟨[], h, ⟨[], query, rfl⟩⟩
  exact ⟨hm, by rw [check_faqs_cons, if_pos hm]⟩

theorem claim_C10_witness :
    (([] : Str) ∈ (FaqEntry.mk "Promo".data "Oferta del día".data
        [[]]).keywords) ∧
    (entry_matches "cualquier cosa".data
        (FaqEntry.mk "Promo".data "Oferta del día".data [[]]) = true ∧
      check_faqs "cualquier cosa".data
        [FaqEntry.mk "Promo".data "Oferta del día".data [[]],
         FaqEntry.mk "Horario".data "Abrimos 9 a 18".data
           ["cualquier".data]] = "Oferta del día".data) :=
  ⟨by decide,
   claim_C10 (FaqEntry.mk "Promo".data "Oferta del día".data [[]])
     [FaqEntry.mk "Horario".data "Abrimos 9 a 18".data ["cualquier".data]]
     "cualquier cosa".data (by decide)⟩

/-- C3: handle_message lowercases the raw text and queries the
knowledge base with the lowercased text; whenever the matcher returns
an answer (a non-empty string, the empty string being its no-match
sentinel), the pipeline replies with exactly that answer, makes zero
Completion Service calls, and delivers and attempts zero sink
notifications. -/
theorem claim_C3 (faqs : List FaqEntry) (gemini : Str → Except Unit Str)
    (sinkOk : Bool) (user rawText : Str)
    (h : check_faqs (lowerStr rawText) faqs ≠ []) :
    handle_message faqs gemini sinkOk user rawText =
      { replies := [check_faqs (lowerStr rawText) faqs]
        notifications := [], geminiCalls := 0, sinkAttempted := false } := by
  unfold handle_message
  simp [h]

theorem claim_C3_witness :
    check_faqs (lowerStr "Hola".data)
      [FaqEntry.mk "Saludo".data "Buenos días".data ["hola".data]] ≠ [] ∧
    handle_message [FaqEntry.mk "Saludo".data "Buenos días".data ["hola".data]]
        (fun _ => Except.error ()) true "u".data "Hola".data =
      { replies := [check_faqs (lowerStr "Hola".data)
          [FaqEntry.mk "Saludo".data "Buenos días".data ["hola".data]]]
        notifications := [], geminiCalls := 0, sinkAttempted := false } :=
  ⟨by decide,
   claim_C3 [FaqEntry.mk "Saludo".data "Buenos días".data ["hola".data]]
     (fun _ => Except.error ()) true "u".data "Hola".data (by decide)⟩

/-- C1: when the lowercased text has no knowledge-base match, the
Completion Service succeeds, and the escalation classifier fires on the
generated text, handle_message ends with the canned acknowledgment (the
generated text is never among the replies), and the sink receives
exactly one notification whose Consulta field is the lowercased query,
which is in particular contained in the delivered notification. -/
theorem claim_C1 (faqs : List FaqEntry) (gemini : Str → Except Unit Str)
    (user rawText generated : Str)
    (hkb : check_faqs (lowerStr rawText) faqs = [])
    (hok : gemini (lowerStr rawText) = Except.ok generated)
    (hesc : needs_human_escalation generated = true) :
    handle_message faqs gemini true user rawText =
      { replies := [escalatedReply, agentAck]
        notifications := [escalation_msg user (lowerStr rawText)]
        geminiCalls := 1, sinkAttempted := true } ∧
    lowerStr rawText <:+: escalation_msg user (lowerStr rawText) := by
  constructor
  · unfold handle_message
    simp [hkb, hok, hesc, escalate_ok_of_some_lower]
  · exact ⟨"🚨 Escalamiento requerido\nUsuario: ".data ++ user
      ++ "\nConsulta: ".data, [], by simp [escalation_msg]⟩

theorem claim_C1_witness :
    check_faqs (lowerStr "Hola".data) [] = [] ∧
    needs_human_escalation "Lo siento, no puedo ayudarte, debo transferir".data
      = true ∧
    (handle_message []
        (fun _ => Except.ok
          "Lo siento, no puedo ayudarte, debo transferir".data)
        true "u".data "Hola".data =
      { replies := [escalatedReply, agentAck]
        notifications := [escalation_msg "u".data (lowerStr "Hola".data)]
        geminiCalls := 1, sinkAttempted := true } ∧
     lowerStr "Hola".data <:+: escalation_msg "u".data (lowerStr "Hola".data)) :=
  ⟨by decide, by decide,
   claim_C1 []
     (fun _ => Except.ok "Lo siento, no puedo ayudarte, debo transferir".data)
     "u".data "Hola".data
     "Lo siento, no puedo ayudarte, debo transferir".data
     (by decide) rfl (by decide)⟩

/-- C2: when the lowercased text has no knowledge-base match and the
Completion Service call raises, handle_message replies with the fixed
technical-difficulty message, the sink receives zero notifications, and
no escalation is attempted. -/
theorem claim_C2 (faqs : List FaqEntry) (gemini : Str → Except Unit Str)
    (sinkOk : Bool) (user rawText : Str)
    (hkb : check_faqs (lowerStr rawText) faqs = [])
    (hfail : gemini (lowerStr rawText) = Except.error ()) :
    handle_message faqs gemini sinkOk user rawText =
      { replies := [techDifficulties], notifications := []
        geminiCalls := 1, sinkAttempted := false } := by
  unfold handle_message
  simp [hkb, hfail]

theorem claim_C2_witness :
    check_faqs (lowerStr "Hola".data) [] = [] ∧
    handle_message [] (fun _ => Except.error ()) true "u".data "Hola".data =
      { replies := [techDifficulties], notifications := []
        geminiCalls := 1, sinkAttempted := false } :=
  ⟨by decide,
   claim_C2 [] (fun _ => Except.error ()) true "u".data "Hola".data
     (by decide) rfl⟩

/-- C4 (divergence witness): on an escalating message whose sink
notification raises, handle_message replies with the technical-difficulty
message, which differs from the canned escalation acknowledgment, even
though the escalation was attempted — the sink call sits inside the
same try/except as the Completion Service call (bot.py lines 112-122),
so its failure is not contained as the design requires. -/
theorem claim_C4_bug :
    (handle_message []
        (fun _ => Except.ok "debo transferir".data)
        false "u".data "hola".data).replies = [techDifficulties] ∧
    techDifficulties ≠ agentAck ∧
    (handle_message []
        (fun _ => Except.ok "debo transferir".data)
        false "u".data "hola".data).sinkAttempted = true :=
  ⟨by decide, by decide, by decide⟩

/-- C7 (counterexample): the claim fails on both explicit-escalation
entry points.  On the human button (a callback-query update, whose
update.message is None) escalate_to_human raises AttributeError before
any notification, so the sink observes nothing and no acknowledgment
is returned; on the /human command the Consulta field falls back to
the text of the command message (Python query or update.message.text),
so the delivered notification carries that text — not a null-query
marker — and changes with it. -/
theorem claim_C7_counterexample :
    button_handler [] true "u".data "human".data = Except.error () ∧
    human_command true "u".data "/human".data = Except.ok
      { replies := [escalatedReply]
        notifications := [escalation_msg "u".data "/human".data]
        geminiCalls := 0, sinkAttempted := true } ∧
    "/human".data <:+: escalation_msg "u".data "/human".data ∧
    escalation_msg "u".data "/human".data ≠
      escalation_msg "u".data "otra consulta".data :=
  ⟨rfl, rfl,
   ⟨"🚨 Escalamiento requerido\nUsuario: ".data ++ "u".data
      ++ "\nConsulta: ".data, [], by decide⟩, by decide⟩

/-- C7 (amended): on the /human command entry point, when the sink call
succeeds, the pipeline notifies the sink exactly once, with the
Consulta field rendered from the text of the command message (the None
query falls back to update.message.text), replies with the canned
acknowledgment of escalate_to_human, and makes zero Completion Service
calls and zero knowledge-base lookups; on the human button entry
point, update.message is None, so escalate_to_human raises
AttributeError before rendering, and the sink receives nothing and no
reply is sent, whatever the sink would have done. -/
theorem claim_C7_amended (faqs : List FaqEntry) (sinkOk : Bool)
    (user msgText : Str) :
    human_command true user msgText = Except.ok
      { replies := [escalatedReply]
        notifications := [escalation_msg user msgText]
        geminiCalls := 0, sinkAttempted := true } ∧
    button_handler faqs sinkOk user "human".data = Except.error () := by
  constructor
  · simp [human_command, escalate_to_human, consultaOf?]
  · simp [button_handler, escalate_to_human, consultaOf?]

/-- C8: the FAQ listing renders one line per entry, each line a bullet
marker followed by the question label of the entry, in load order —
splitting the rendered block on the newline separator recovers exactly
the bulleted labels — and the faqs branch of button_handler emits only
that block: no sink notification and no Completion Service call. -/
theorem claim_C8 (faqs : List FaqEntry) (hne : faqs ≠ [])
    (hq : ∀ f ∈ faqs, ('\n' : Char) ∉ f.question) :
    (faq_list faqs).splitOn '\n' =
      faqs.map (fun f => "• ".data ++ f.question) ∧
    faqs_button faqs =
      { replies := ["📚 FAQs Disponibles:\n".data ++ faq_list faqs]
        notifications := [], geminiCalls := 0, sinkAttempted := false } := by
  constructor
  · unfold faq_list
    rw [show ("\n".data : Str) = ['\n'] by decide]
    refine List.splitOn_intercalate _ '\n' ?_ ?_
    · intro l hl
      obtain ⟨f, hf, rfl⟩ := List.mem_map.mp hl
      intro hmem
      rcases List.mem_append.mp hmem with hbul | hques
      · exact absurd hbul (by decide)
      · exact hq f hf hques
    · simpa using hne
  · rfl

theorem claim_C8_witness :
    ([FaqEntry.mk "Horario".data "Abrimos 9 a 18".data ["horario".data],
      FaqEntry.mk "Precios".data "Desde 10".data ["precio".data]] :
        List FaqEntry) ≠ [] ∧
    (∀ f ∈ ([FaqEntry.mk "Horario".data "Abrimos 9 a 18".data ["horario".data],
        FaqEntry.mk "Precios".data "Desde 10".data ["precio".data]] :
          List FaqEntry), ('\n' : Char) ∉ f.question) ∧
    ((faq_list [FaqEntry.mk "Horario".data "Abrimos 9 a 18".data ["horario".data],
        FaqEntry.mk "Precios".data "Desde 10".data ["precio".data]]).splitOn '\n' =
      ([FaqEntry.mk "Horario".data "Abrimos 9 a 18".data ["horario".data],
        FaqEntry.mk "Precios".data "Desde 10".data ["precio".data]] :
          List FaqEntry).map (fun f => "• ".data ++ f.question) ∧
     faqs_button [FaqEntry.mk "Horario".data "Abrimos 9 a 18".data ["horario".data],
        FaqEntry.mk "Precios".data "Desde 10".data ["precio".data]] =
      { replies := ["📚 FAQs Disponibles:\n".data ++
          faq_list [FaqEntry.mk "Horario".data "Abrimos 9 a 18".data ["horario".data],
            FaqEntry.mk "Precios".data "Desde 10".data ["precio".data]]]
        notifications := [], geminiCalls := 0, sinkAttempted := false }) :=
  ⟨by decide, by decide,
   claim_C8 [FaqEntry.mk "Horario".data "Abrimos 9 a 18".data ["horario".data],
      FaqEntry.mk "Precios".data "Desde 10".data ["precio".data]]
     (by decide) (by decide)⟩

/-- C9: when the first FAQ entry matching the lowercased query has an
empty answer, the matcher returns the empty string — the same value it
returns on a knowledge base with no entries at all — so handle_message
still makes one Completion Service call despite the keyword match: the
no-match and empty-answer cases are conflated. -/
theorem claim_C9 (faqs : List FaqEntry) (gemini : Str → Except Unit Str)
    (sinkOk : Bool) (user rawText : Str) (e : FaqEntry)
    (hfind : faqs.find? (entry_matches (lowerStr rawText)) = some e)
    (hans : e.answer = []) :
    check_faqs (lowerStr rawText) faqs = [] ∧
    check_faqs (lowerStr rawText) faqs = check_faqs (lowerStr rawText) [] ∧
    (handle_message faqs gemini sinkOk user rawText).geminiCalls = 1 := by
  have h1 : check_faqs (lowerStr rawText) faqs = [] := by
    rw [check_faqs_eq_match_spec]
    simp [match_spec, hfind, hans]
  exact ⟨h1, by rw [h1]; rfl,
    geminiCalls_of_kb_miss faqs gemini sinkOk user rawText h1⟩

theorem claim_C9_witness :
    ([FaqEntry.mk "Saludo".data [] ["hola".data]] : List FaqEntry).find?
        (entry_matches (lowerStr "Hola".data)) =
      some (FaqEntry.mk "Saludo".data [] ["hola".data]) ∧
    (FaqEntry.mk "Saludo".data [] ["hola".data]).answer = [] ∧
    (check_faqs (lowerStr "Hola".data)
        [FaqEntry.mk "Saludo".data [] ["hola".data]] = [] ∧
     check_faqs (lowerStr "Hola".data)
        [FaqEntry.mk "Saludo".data [] ["hola".data]] =
       check_faqs (lowerStr "Hola".data) [] ∧
     (handle_message [FaqEntry.mk "Saludo".data [] ["hola".data]]
        (fun _ => Except.ok "una respuesta".data) true
        "u".data "Hola".data).geminiCalls = 1) :=
  ⟨by decide, by decide,
   claim_C9 [FaqEntry.mk "Saludo".data [] ["hola".data]]
     (fun _ => Except.ok "una respuesta".data) true "u".data "Hola".data
     (FaqEntry.mk "Saludo".data [] ["hola".data]) (by decide) (by decide)⟩
